import Mathlib

/-!
# Verification of the wink-rtsp-bench core against its specification

Shallow embedding of the RTP sequence tracker (`internal/rtp/seq.go`),
the statistics aggregator, the RTSP client's RTP processing paths,
the orchestrator's concurrency cap (`bench.NewRunner`) and the
real-world load controller (`bench.RealWorldSimulator`).

Machine integers are modelled as `Nat`/`Int`; 16-bit wraparound is made
explicit with `% 65536` where the Go code performs `uint16` arithmetic.
The 64-bit counters (`totalPkts`, `totalLost`, aggregator counters) are
modelled as unbounded `Nat`: they grow by less than `2 ^ 16` per packet,
so a 64-bit overflow is unreachable on any feasible run and never
affects the properties proved here.  Go's `float64` arithmetic in the
real-world controller is modelled over `ℚ`.
-/

/-- State of `rtp.SeqTracker` (seq.go).  Field names follow the Go
struct; the zero value of every field matches `NewSeqTracker`. -/
structure SeqTracker where
  initialized : Bool
  lastSeq : Nat
  totalLost : Nat
  totalPkts : Nat
  cycles : Nat
  maxSeq : Nat
  baseSeq : Nat
  badSeq : Nat
  probation : Int
  deriving Repr, DecidableEq

/-- `rtp.NewSeqTracker`: all fields zero, `probation = 0`. -/
def SeqTracker.new : SeqTracker :=
  { initialized := false, lastSeq := 0, totalLost := 0, totalPkts := 0
    cycles := 0, maxSeq := 0, baseSeq := 0, badSeq := 0, probation := 0 }

/-- `uint16` subtraction `a - b` for `a b < 65536`, as used in
`updateSequence` (`uint16(seq - s.lastSeq)`). -/
def sub16 (a b : Nat) : Nat := (a + 65536 - b) % 65536

/-- `SeqTracker.initSequence` (seq.go lines 46-54). -/
def SeqTracker.initSequence (s : SeqTracker) (seq : Nat) : SeqTracker :=
  { s with baseSeq := seq, maxSeq := seq, lastSeq := seq, badSeq := seq + 1,
           cycles := 0, initialized := true, totalPkts := 1 }

/-- `SeqTracker.updateSequence` (seq.go lines 57-102).  Returns the
updated tracker and the `lost` return value.  `s.cycles<<16 | uint32(seq)`
becomes `cycles * 65536 % 4294967296 + seq` (the low 16 bits of the
shifted `uint32` are zero, so the bitwise or is addition).  Note that
`lastSeq := seq` and `totalPkts + 1` are applied on every path, exactly
as in the source (lines 98-99 sit after the whole if/else chain). -/
def SeqTracker.updateSequence (s : SeqTracker) (seq : Nat) : SeqTracker × Nat :=
  let udelta := sub16 seq s.lastSeq
  if udelta < 32768 then
    if udelta > 0 then
      let lost := if udelta > 1 then udelta - 1 else 0
      let cycles := if seq < s.lastSeq then s.cycles + 1 else s.cycles
      ({ s with totalLost := s.totalLost + lost,
                cycles := cycles,
                maxSeq := cycles * 65536 % 4294967296 + seq,
                lastSeq := seq,
                totalPkts := s.totalPkts + 1 }, lost)
    else
      ({ s with lastSeq := seq, totalPkts := s.totalPkts + 1 }, 0)
  else
    if sub16 s.lastSeq seq < 32768 then
      ({ s with lastSeq := seq, totalPkts := s.totalPkts + 1 }, 0)
    else
      let cycles := s.cycles + 1
      let actualDelta := 65536 - s.lastSeq + seq
      let lost := if actualDelta > 1 then actualDelta - 1 else 0
      ({ s with cycles := cycles,
                maxSeq := cycles * 65536 % 4294967296 + seq,
                totalLost := s.totalLost + lost,
                lastSeq := seq,
                totalPkts := s.totalPkts + 1 }, lost)

/-- `SeqTracker.Push` (seq.go lines 33-43). -/
def SeqTracker.push (s : SeqTracker) (seq : Nat) : SeqTracker × Nat :=
  if s.initialized then s.updateSequence seq else (s.initSequence seq, 0)

/-- C1, claim as stated is false: after pushes 100 then 99 (backward
region, delta = 65535 ≥ 0x8000) the push returns 0 and `total_lost`
stays 0, but `last_seq` becomes 99 (not 100) and `total_packets`
becomes 2 — lines 98-99 of seq.go run unconditionally. -/
theorem c1_counterexample :
    ((SeqTracker.new.push 100).1.push 99).2 = 0 ∧
    ((SeqTracker.new.push 100).1.push 99).1.totalLost = 0 ∧
    ((SeqTracker.new.push 100).1.push 99).1.lastSeq = 99 ∧
    ((SeqTracker.new.push 100).1.push 99).1.totalPkts = 2 ∧
    ((SeqTracker.new.push 100).1.push 99).1.lastSeq ≠ 100 := by
  decide

/-- C1 (amended): for an initialized tracker and a strictly backward
delta (0x8000 < delta < 2^16), push returns 0 and leaves `total_lost`
unchanged, but it sets `last_seq := seq` and increments
`total_packets` by one. -/
theorem c1_backward_push (s : SeqTracker) (seq : Nat)
    (hinit : s.initialized = true) (hl : s.lastSeq < 65536)
    (hs : seq < 65536) (hd : 32768 < sub16 seq s.lastSeq) :
    (s.push seq).2 = 0 ∧
    (s.push seq).1.totalLost = s.totalLost ∧
    (s.push seq).1.lastSeq = seq ∧
    (s.push seq).1.totalPkts = s.totalPkts + 1 := by
  have hfwd : ¬ sub16 seq s.lastSeq < 32768 := by omega
  have hback : sub16 s.lastSeq seq < 32768 := by
    unfold sub16 at *
    omega
  simp [SeqTracker.push, SeqTracker.updateSequence, hinit, hfwd, hback]

/-- Witness for `c1_backward_push` at the tracker obtained by pushing
100, with seq = 99. -/
theorem c1_backward_push_witness :
    ((SeqTracker.new.push 100).1.initialized = true ∧
     (SeqTracker.new.push 100).1.lastSeq < 65536 ∧
     99 < 65536 ∧
     32768 < sub16 99 (SeqTracker.new.push 100).1.lastSeq) ∧
    (((SeqTracker.new.push 100).1.push 99).2 = 0 ∧
     ((SeqTracker.new.push 100).1.push 99).1.totalLost =
       (SeqTracker.new.push 100).1.totalLost ∧
     ((SeqTracker.new.push 100).1.push 99).1.lastSeq = 99 ∧
     ((SeqTracker.new.push 100).1.push 99).1.totalPkts =
       (SeqTracker.new.push 100).1.totalPkts + 1) :=
  ⟨⟨by decide, by decide, by decide, by decide⟩,
   c1_backward_push (SeqTracker.new.push 100).1 99
     (by decide) (by decide) (by decide) (by decide)⟩

/-- C2: pushing the duplicate 100 after 100 returns 0 and leaves
`total_lost` at 0, but `total_packets` becomes 2 — the unconditional
`totalPkts++` (seq.go line 99) counts the duplicate, contradicting the
`duplicate packet, ignore` comment and the spec's
`total_packets += 0` boundary test. -/
theorem c2_duplicate_counts_packet :
    ((SeqTracker.new.push 100).1.push 100).2 = 0 ∧
    ((SeqTracker.new.push 100).1.push 100).1.totalLost = 0 ∧
    ((SeqTracker.new.push 100).1.push 100).1.lastSeq = 100 ∧
    ((SeqTracker.new.push 100).1.push 100).1.totalPkts = 2 := by
  decide

/-- C3: pushing 65534, 65535, 0, 1 from a fresh tracker gives
`total_packets = 4`, `total_lost = 0`, `cycles = 1`; pushing 65533
then 2 from a fresh tracker gives `total_lost = 4`, `cycles = 1`:
loss is computed across the 16-bit wrap. -/
theorem c3_sequence_wrap :
    (((((SeqTracker.new.push 65534).1.push 65535).1.push 0).1.push 1).1.totalPkts = 4 ∧
     ((((SeqTracker.new.push 65534).1.push 65535).1.push 0).1.push 1).1.totalLost = 0 ∧
     ((((SeqTracker.new.push 65534).1.push 65535).1.push 0).1.push 1).1.cycles = 1) ∧
    (((SeqTracker.new.push 65533).1.push 2).1.totalLost = 4 ∧
     ((SeqTracker.new.push 65533).1.push 2).1.cycles = 1) := by
  decide

/-- Per-process counters of `rtp.Aggregator` (seq.go lines 126-130);
the three atomic `Uint64` counters as plain naturals. -/
structure Aggregator where
  packets : Nat
  lost : Nat
  bytes : Nat
  deriving Repr, DecidableEq

/-- `Aggregator.AddPackets` (seq.go lines 138-142): no-op on `n = 0`. -/
def Aggregator.addPackets (a : Aggregator) (n : Nat) : Aggregator :=
  if n > 0 then { a with packets := a.packets + n } else a

/-- `Aggregator.AddLoss` (seq.go lines 145-149): no-op on `n = 0`. -/
def Aggregator.addLoss (a : Aggregator) (n : Nat) : Aggregator :=
  if n > 0 then { a with lost := a.lost + n } else a

/-- `Aggregator.AddBytes` (seq.go lines 152-156): no-op on `n = 0`. -/
def Aggregator.addBytes (a : Aggregator) (n : Nat) : Aggregator :=
  if n > 0 then { a with bytes := a.bytes + n } else a

/-- `rtp.Snapshot` (seq.go lines 168-172). -/
structure Snapshot where
  packets : Nat
  lost : Nat
  bytes : Nat
  deriving Repr, DecidableEq

/-- `Aggregator.Snapshot` (seq.go lines 159-165). -/
def Aggregator.snapshot (a : Aggregator) : Snapshot :=
  { packets := a.packets, lost := a.lost, bytes := a.bytes }

/-- `Snapshot.LossRate` (seq.go lines 175-181), `float64` arithmetic
modelled over `ℚ`: 0 when `packets + lost = 0`, otherwise
`lost * 100 / (packets + lost)` (a percentage). -/
def Snapshot.lossRate (s : Snapshot) : ℚ :=
  let total := s.packets + s.lost
  if total = 0 then 0 else (s.lost : ℚ) * 100 / (total : ℚ)

/-- The part of `rtsp.Client` state touched by the media paths:
its tracker, the shared aggregator, and the local `packetsRcvd` /
`bytesReceived` counters. -/
structure ClientState where
  tracker : SeqTracker
  aggregator : Aggregator
  packetsRcvd : Nat
  bytesReceived : Nat
  deriving Repr, DecidableEq

/-- A fresh client as produced by `rtsp.NewClient` with a fresh
aggregator: new tracker, zero counters. -/
def ClientState.fresh : ClientState :=
  { tracker := SeqTracker.new, aggregator := ⟨0, 0, 0⟩,
    packetsRcvd := 0, bytesReceived := 0 }

/-- `Client.processRTPPacket` (seq.go lines 929-948).  A packet is a
byte list; bytes 2-3 big-endian form the sequence number.  The Go code
updates the local `c.bytesReceived`, not the aggregator's byte
counter. -/
def ClientState.processRTPPacket (c : ClientState) (data : List Nat) : ClientState :=
  if data.length < 12 then c
  else
    let seq := data.getD 2 0 * 256 + data.getD 3 0
    let pr := c.tracker.push seq
    let agg := if pr.2 > 0 then c.aggregator.addLoss pr.2 else c.aggregator
    { tracker := pr.1,
      aggregator := agg.addPackets 1,
      packetsRcvd := c.packetsRcvd + 1,
      bytesReceived := c.bytesReceived + data.length }

/-- Dispatch of one well-formed interleaved frame in
`Client.readInterleavedFrame` (seq.go lines 875-926): the payload is
processed only when `channel == 0 && len(payload) >= 12`; then
`bytesReceived += 4 + length`. -/
def ClientState.readInterleavedFrame (c : ClientState) (channel : Nat)
    (payload : List Nat) : ClientState :=
  let c1 := if channel = 0 ∧ 12 ≤ payload.length
            then c.processRTPPacket payload else c
  { c1 with bytesReceived := c1.bytesReceived + (4 + payload.length) }

/-- `Client.reportStats` (seq.go lines 1263-1270): on the exit paths the
tracker's cumulative `Lost` is added to the aggregator once more. -/
def ClientState.reportStats (c : ClientState) : ClientState :=
  if c.tracker.totalLost > 0
  then { c with aggregator := c.aggregator.addLoss c.tracker.totalLost }
  else c

/-- A 12-byte RTP packet with sequence number 100 (bytes 2-3 = 0, 100). -/
def pktSeq100 : List Nat := [128, 96, 0, 100, 0, 0, 0, 0, 0, 0, 0, 0]

/-- A 12-byte RTP packet with sequence number 105. -/
def pktSeq105 : List Nat := [128, 96, 0, 105, 0, 0, 0, 0, 0, 0, 0, 0]

/-- C4, claim as stated is false at a concrete input: processing a
12-byte packet from a fresh client counts the packet in the aggregator
but leaves the aggregator's byte counter at 0 — `aggregator.AddBytes`
is never called; only the client-local `bytesReceived` grows by the
packet length. -/
theorem c4_counterexample :
    (ClientState.fresh.processRTPPacket pktSeq100).aggregator.packets = 1 ∧
    (ClientState.fresh.processRTPPacket pktSeq100).aggregator.bytes = 0 ∧
    (ClientState.fresh.processRTPPacket pktSeq100).bytesReceived = 12 ∧
    pktSeq100.length = 12 ∧ (0 : Nat) ≠ 12 := by
  decide

/-- C4 (amended): for every packet of length ≥ 12, `processRTPPacket`
pushes the big-endian bytes 2-3 into the tracker, adds the returned
loss to the aggregator (when positive), adds 1 to the aggregator's
packet counter, leaves the aggregator's byte counter unchanged, and
adds the packet length to the client-local `bytesReceived`. -/
theorem c4_process_rtp (c : ClientState) (data : List Nat)
    (h : 12 ≤ data.length) :
    (c.processRTPPacket data).tracker =
      (c.tracker.push (data.getD 2 0 * 256 + data.getD 3 0)).1 ∧
    (c.processRTPPacket data).aggregator.lost =
      c.aggregator.lost + (c.tracker.push (data.getD 2 0 * 256 + data.getD 3 0)).2 ∧
    (c.processRTPPacket data).aggregator.packets = c.aggregator.packets + 1 ∧
    (c.processRTPPacket data).aggregator.bytes = c.aggregator.bytes ∧
    (c.processRTPPacket data).bytesReceived = c.bytesReceived + data.length ∧
    (c.processRTPPacket data).packetsRcvd = c.packetsRcvd + 1 := by
  have hlen : ¬ data.length < 12 := by omega
  have key : ∀ (a : Aggregator) (n : Nat),
      ((if n > 0 then a.addLoss n else a).addPackets 1).lost = a.lost + n ∧
      ((if n > 0 then a.addLoss n else a).addPackets 1).packets = a.packets + 1 ∧
      ((if n > 0 then a.addLoss n else a).addPackets 1).bytes = a.bytes := by
    intro a n
    by_cases hn : n > 0 <;>
      simp [Aggregator.addLoss, Aggregator.addPackets, hn] <;> omega
  simp only [ClientState.processRTPPacket, hlen, if_false]
  exact ⟨by trivial, (key _ _).1, (key _ _).2.1, (key _ _).2.2, by trivial, by trivial⟩

/-- Witness for `c4_process_rtp`: the fresh client and the concrete
12-byte packet `pktSeq100`. -/
theorem c4_process_rtp_witness :
    12 ≤ pktSeq100.length ∧
    ((ClientState.fresh.processRTPPacket pktSeq100).tracker =
      (ClientState.fresh.tracker.push
        (pktSeq100.getD 2 0 * 256 + pktSeq100.getD 3 0)).1 ∧
     (ClientState.fresh.processRTPPacket pktSeq100).aggregator.lost =
      ClientState.fresh.aggregator.lost +
        (ClientState.fresh.tracker.push
          (pktSeq100.getD 2 0 * 256 + pktSeq100.getD 3 0)).2 ∧
     (ClientState.fresh.processRTPPacket pktSeq100).aggregator.packets =
      ClientState.fresh.aggregator.packets + 1 ∧
     (ClientState.fresh.processRTPPacket pktSeq100).aggregator.bytes =
      ClientState.fresh.aggregator.bytes ∧
     (ClientState.fresh.processRTPPacket pktSeq100).bytesReceived =
      ClientState.fresh.bytesReceived + pktSeq100.length ∧
     (ClientState.fresh.processRTPPacket pktSeq100).packetsRcvd =
      ClientState.fresh.packetsRcvd + 1) :=
  ⟨by decide, c4_process_rtp ClientState.fresh pktSeq100 (by decide)⟩

/-- C5, claim as stated is false at a concrete input: a well-formed
interleaved frame on channel 2 (audio RTP) with a 12-byte payload is
NOT handed to RTP processing (the aggregator's packet counter stays 0),
while the same payload on channel 0 is processed — seq.go line 920
tests `channel == 0` only. -/
theorem c5_counterexample :
    (ClientState.fresh.readInterleavedFrame 2 pktSeq100).aggregator.packets = 0 ∧
    (ClientState.fresh.readInterleavedFrame 2 pktSeq100).tracker.totalPkts = 0 ∧
    (ClientState.fresh.readInterleavedFrame 0 pktSeq100).aggregator.packets = 1 := by
  decide

/-- C5 (amended): a well-formed interleaved frame is handed to RTP
processing exactly when its channel byte is 0 and its payload is at
least 12 bytes; payloads on every other channel — including channel 2
(audio RTP) and the odd RTCP channels — are discarded, with only
`bytesReceived` accounting for the frame. -/
theorem c5_interleaved_dispatch (c : ClientState) (channel : Nat)
    (payload : List Nat) :
    (channel = 0 → 12 ≤ payload.length →
      c.readInterleavedFrame channel payload =
        { c.processRTPPacket payload with
          bytesReceived :=
            (c.processRTPPacket payload).bytesReceived + (4 + payload.length) }) ∧
    (channel ≠ 0 →
      c.readInterleavedFrame channel payload =
        { c with bytesReceived := c.bytesReceived + (4 + payload.length) }) := by
  constructor
  · intro h0 hlen
    simp [ClientState.readInterleavedFrame, h0, hlen]
  · intro hne
    simp [ClientState.readInterleavedFrame, hne]

/-- Witness for `c5_interleaved_dispatch`: a channel-2 frame with a
12-byte payload is discarded. -/
theorem c5_interleaved_dispatch_witness :
    (2 : Nat) ≠ 0 ∧
    ClientState.fresh.readInterleavedFrame 2 pktSeq100 =
      { ClientState.fresh with
        bytesReceived := ClientState.fresh.bytesReceived + (4 + pktSeq100.length) } :=
  ⟨by decide,
   (c5_interleaved_dispatch ClientState.fresh 2 pktSeq100).2 (by decide)⟩

/-- C7: a session that processes sequence numbers 100 then 105 already
adds the 4 lost packets to the aggregator inside `processRTPPacket`;
the exit-path `reportStats` then adds the tracker's cumulative
`total_lost = 4` again, leaving `aggregator.lost = 8 ≠ 4` — the
per-session loss is counted twice, not once. -/
theorem c7_loss_double_counted :
    ((ClientState.fresh.processRTPPacket pktSeq100).processRTPPacket
        pktSeq105).tracker.totalLost = 4 ∧
    ((ClientState.fresh.processRTPPacket pktSeq100).processRTPPacket
        pktSeq105).aggregator.lost = 4 ∧
    (((ClientState.fresh.processRTPPacket pktSeq100).processRTPPacket
        pktSeq105).reportStats).aggregator.lost = 8 ∧
    (((ClientState.fresh.processRTPPacket pktSeq100).processRTPPacket
        pktSeq105).reportStats).tracker.totalLost = 4 ∧
    (8 : Nat) ≠ 4 := by
  decide

/-- C10: `LossRate` is total: it returns 0 on the fresh-aggregator
edge case `packets + lost = 0` instead of dividing by zero, and
otherwise it is the quotient of `lost` (scaled to percent) by
`packets + lost`. -/
theorem c10_loss_rate_total (s : Snapshot) :
    (s.packets + s.lost = 0 → s.lossRate = 0) ∧
    (s.packets + s.lost ≠ 0 →
      s.lossRate * ((s.packets : ℚ) + (s.lost : ℚ)) = (s.lost : ℚ) * 100) := by
  constructor
  · intro h
    simp [Snapshot.lossRate, h]
  · intro h
    have htot : ((s.packets + s.lost : Nat) : ℚ) ≠ 0 := by
      exact_mod_cast h
    simp only [Snapshot.lossRate, h, if_false]
    push_cast at htot ⊢
    field_simp

/-- Witness for `c10_loss_rate_total`: the zero snapshot returns 0, and
the snapshot (packets 3, lost 1) satisfies the quotient equation. -/
theorem c10_loss_rate_total_witness :
    (Snapshot.lossRate ⟨0, 0, 0⟩ = 0) ∧
    ((3 : Nat) + 1 ≠ 0 ∧
      Snapshot.lossRate ⟨3, 1, 0⟩ * (((3 : Nat) : ℚ) + ((1 : Nat) : ℚ)) =
        ((1 : Nat) : ℚ) * 100) :=
  ⟨(c10_loss_rate_total ⟨0, 0, 0⟩).1 rfl,
   by decide, (c10_loss_rate_total ⟨3, 1, 0⟩).2 (by decide)⟩

/-- The semaphore capacity computed in `bench.NewRunner`
(part_001 lines 71-79): start at 10000; when `Readers > 10000` take
`Readers / 10` (Go integer division) capped above at 50000 —
note there is no lower clamp in that branch. -/
def maxConcurrent (readers : Nat) : Nat :=
  if readers > 10000 then
    let m := readers / 10
    if m > 50000 then 50000 else m
  else 10000

/-- C6, claim as stated is false at a concrete input: for a target of
N = 20000 the semaphore capacity is 20000 / 10 = 2000, which is below
the claimed floor of 10000 and differs from
clamp(N/10, 10000, 50000) = 10000. -/
theorem c6_counterexample :
    maxConcurrent 20000 = 2000 ∧ 2000 < 10000 ∧
    maxConcurrent 20000 ≠ max (min (20000 / 10) 50000) 10000 := by
  decide

/-- C6 (amended): the semaphore capacity is 10000 for N ≤ 10000 and
min(N/10, 50000) for N > 10000; no lower clamp of 10000 is applied in
the second branch, so the capacity can drop to 1000 (but never
below). -/
theorem c6_max_concurrent (n : Nat) :
    (n ≤ 10000 → maxConcurrent n = 10000) ∧
    (10000 < n → maxConcurrent n = min (n / 10) 50000) ∧
    1000 ≤ maxConcurrent n := by
  unfold maxConcurrent
  refine ⟨fun h => ?_, fun h => ?_, ?_⟩
  · have hgt : ¬ n > 10000 := by omega
    simp [hgt]
  · simp only [h, if_pos]
    rcases Nat.lt_or_ge 50000 (n / 10) with h5 | h5
    · have hmin : min (n / 10) 50000 = 50000 := Nat.min_eq_right (by omega)
      simp [h5, hmin]
    · have hgt : ¬ n / 10 > 50000 := by omega
      simp [hgt, Nat.min_eq_left h5]
  · by_cases h : n > 10000
    · have hq : 1000 ≤ n / 10 := by omega
      by_cases h5 : n / 10 > 50000 <;> simp [h, h5] <;> omega
    · simp [h]

/-- Witness for `c6_max_concurrent` at N = 20000: the second and third
conjuncts hold there with capacity 2000. -/
theorem c6_max_concurrent_witness :
    10000 < 20000 ∧ maxConcurrent 20000 = min (20000 / 10) 50000 ∧
    1000 ≤ maxConcurrent 20000 :=
  ⟨by decide, (c6_max_concurrent 20000).2.1 (by decide),
   (c6_max_concurrent 20000).2.2⟩

/-- Go `int64(x)` truncation toward zero of a rational. -/
def truncQ (q : ℚ) : ℤ := if q < 0 then ⌈q⌉ else ⌊q⌋

/-- The hour-of-day factor switch in
`RealWorldSimulator.adjustTargetLoad` (part_004 lines 104-117). -/
def dayFactor (hour : Nat) : ℚ :=
  if 9 ≤ hour ∧ hour ≤ 11 then 12 / 10
  else if 12 ≤ hour ∧ hour ≤ 13 then 9 / 10
  else if 14 ≤ hour ∧ hour ≤ 17 then 11 / 10
  else if 18 ≤ hour ∧ hour ≤ 22 then 13 / 10
  else if 23 ≤ hour ∨ hour ≤ 5 then 6 / 10
  else 8 / 10

/-- `RealWorldSimulator.adjustTargetLoad` (part_004 lines 95-140),
with `time.Now().Hour()` and the draw `rand.Float64()` as parameters
and `float64` arithmetic over `ℚ`.  Returns the value stored into
`targetConnects`: the truncated product, clamped first from below by
`int64(avg*(1-variance))` and then from above by
`int64(avg*(1+variance))`. -/
def adjustTargetLoad (avg variance : ℚ) (hour : Nat) (u : ℚ) : ℤ :=
  let randomFactor := 1 + (u - 1 / 2) * variance
  let newTarget := truncQ (avg * dayFactor hour * randomFactor)
  let minTarget := truncQ (avg * (1 - variance))
  let maxTarget := truncQ (avg * (1 + variance))
  let t := if newTarget < minTarget then minTarget else newTarget
  if t > maxTarget then maxTarget else t

/-- C8: with avg = 500 and variance = 0.3, for every hour of the day
and every random draw in [0, 1), the stored target lies in
[350, 650] = [avg*(1-variance), avg*(1+variance)]. -/
theorem c8_target_clamped (hour : Nat) (u : ℚ)
    (hhour : hour < 24) (hu0 : 0 ≤ u) (hu1 : u < 1) :
    350 ≤ adjustTargetLoad 500 (3 / 10) hour u ∧
    adjustTargetLoad 500 (3 / 10) hour u ≤ 650 := by
  have hmin : truncQ (500 * (1 - 3 / 10)) = 350 := by
    norm_num [truncQ]
  have hmax : truncQ (500 * (1 + 3 / 10)) = 650 := by
    norm_num [truncQ]
  simp only [adjustTargetLoad]
  rw [hmin, hmax]
  split_ifs <;> omega

/-- Witness for `c8_target_clamped` at hour 0 and draw 0. -/
theorem c8_target_clamped_witness :
    (0 < 24 ∧ (0 : ℚ) ≤ 0 ∧ (0 : ℚ) < 1) ∧
    (350 ≤ adjustTargetLoad 500 (3 / 10) 0 0 ∧
     adjustTargetLoad 500 (3 / 10) 0 0 ≤ 650) :=
  ⟨⟨by norm_num, le_refl 0, by norm_num⟩,
   c8_target_clamped 0 0 (by norm_num) (le_refl 0) (by norm_num)⟩

/-- `maxDuration` in `RealWorldSimulator.addConnection`
(part_004 lines 214-218), in nanoseconds (Go `time.Duration`):
`config.Duration`, replaced by 5 minutes when it is ≤ 30 seconds. -/
def sessionMaxDuration (d : ℤ) : ℤ :=
  if d ≤ 30000000000 then 300000000000 else d

/-- `durationRange` in `addConnection` (part_004 lines 220-223):
`maxDuration - 30 s`, with a (dead) fallback of 4 min 30 s when the
difference is ≤ 0. -/
def sessionDurationRange (d : ℤ) : ℤ :=
  let r := sessionMaxDuration d - 30000000000
  if r ≤ 0 then 270000000000 else r

/-- The session lifetime `duration := minDuration + rand.Int63n(range)`
(part_004 line 225); `r` models the draw, which satisfies
`0 ≤ r < sessionDurationRange d`. -/
def sessionLifetime (d r : ℤ) : ℤ := 30000000000 + r

/-- C9, claim as stated is false at a concrete input: with per-session
duration D = 30 s exactly (so D ≥ 30 s, where the claim promises a
lifetime in [30 s, 30 s]), the code takes the `maxDuration <= 30 s`
fallback: the range is 270 s and the draw r = 1 s yields a 31 s
lifetime, outside [30 s, 30 s]. -/
theorem c9_counterexample :
    sessionDurationRange 30000000000 = 270000000000 ∧
    (0 : ℤ) ≤ 1000000000 ∧ (1000000000 : ℤ) < 270000000000 ∧
    sessionLifetime 30000000000 1000000000 = 31000000000 ∧
    ¬ (31000000000 : ℤ) ≤ 30000000000 := by
  decide

/-- C9 (amended): every drawn lifetime lies in [30 s, maxDuration):
when D > 30 s the lifetime is uniform over [30 s, D) (upper end
exclusive), and when D ≤ 30 s (including D = 30 s exactly) it is drawn
from [30 s, 5 min). -/
theorem c9_lifetime_bounds (d r : ℤ)
    (hr0 : 0 ≤ r) (hr1 : r < sessionDurationRange d) :
    30000000000 ≤ sessionLifetime d r ∧
    sessionLifetime d r < sessionMaxDuration d ∧
    (30000000000 < d → sessionMaxDuration d = d) ∧
    (d ≤ 30000000000 → sessionMaxDuration d = 300000000000) := by
  unfold sessionLifetime sessionMaxDuration
  unfold sessionDurationRange sessionMaxDuration at hr1
  by_cases h : d ≤ 30000000000 <;> simp [h] at hr1 ⊢ <;> omega

/-- Witness for `c9_lifetime_bounds` at D = 60 s and draw r = 0. -/
theorem c9_lifetime_bounds_witness :
    ((0 : ℤ) ≤ 0 ∧ (0 : ℤ) < sessionDurationRange 60000000000) ∧
    (30000000000 ≤ sessionLifetime 60000000000 0 ∧
     sessionLifetime 60000000000 0 < sessionMaxDuration 60000000000 ∧
     (30000000000 < (60000000000 : ℤ) →
       sessionMaxDuration 60000000000 = 60000000000) ∧
     ((60000000000 : ℤ) ≤ 30000000000 →
       sessionMaxDuration 60000000000 = 300000000000)) :=
  ⟨⟨le_refl 0, by decide⟩, c9_lifetime_bounds 60000000000 0 (le_refl 0) (by decide)⟩
